import Mathlib

/-!
Verification of the Coco Chat "Personality Guard" (personality-guard.js and
personality-config.js).  JavaScript strings are modelled as `List Char`;
`String.prototype.includes` becomes decidable infix testing, `.length` and
`.substring` count UTF-16 code units as JS does, numeric values are modelled
as rationals, and every call to `Math.random()` is replaced by an explicit
natural-number choice parameter reduced modulo the list being sampled.
-/

namespace Coco

/-- JavaScript strings, as lists of Unicode scalar values. -/
abbrev Str := List Char

/-- Embeds `String.prototype.toLowerCase` (ASCII letters; no config datum uses
non-ASCII cased letters). -/
def lower (s : Str) : Str := s.map Char.toLower

/-- Embeds `haystack.includes(needle)`: contiguous-substring test. -/
def includes (s sub : Str) : Bool := decide (sub <:+: s)

/-- JS `.length`: number of UTF-16 code units (astral code points count 2). -/
def jsLength (s : Str) : Nat :=
  (s.map (fun c => if c.toNat ≥ 0x10000 then 2 else 1)).sum

/-- JS `.substring(0, budget)` with a UTF-16 code-unit budget.  (A code point
whose two code units would straddle the cut is dropped whole, since `Char`
cannot hold a lone surrogate; no claim depends on that corner.) -/
def jsTake (budget : Nat) : Str → Str
  | [] => []
  | c :: rest =>
    let w := if c.toNat ≥ 0x10000 then 2 else 1
    if w ≤ budget then c :: jsTake (budget - w) rest else []

/-- Maximal non-whitespace runs of a string, in order. -/
def wordRuns (s : Str) : List Str :=
  (s.splitOnP (fun c => c.isWhitespace)).filter (fun w => w ≠ [])

/-- JS `s.split(/\s+/)`: the non-whitespace runs, plus an empty token at
either end when the string starts/ends with whitespace, and `[""]` for `""`. -/
def jsSplitWs (s : Str) : List Str :=
  if s = [] then [[]]
  else
    (if s.head?.any Char.isWhitespace then [([] : Str)] else [])
      ++ wordRuns s
      ++ (if s.getLast?.any Char.isWhitespace then [([] : Str)] else [])

/-- One code point of the emoji regex used by the guard,
`/[\u{1F600}-\u{1F64F}]|[\u{1F300}-\u{1F5FF}]|[\u{1F680}-\u{1F6FF}]|[\u{1F1E0}-\u{1F1FF}]|[\u{2600}-\u{26FF}]|[\u{2700}-\u{27BF}]/u`. -/
def isEmojiChar (c : Char) : Bool :=
  let n := c.toNat
  decide (0x1F600 ≤ n ∧ n ≤ 0x1F64F) || decide (0x1F300 ≤ n ∧ n ≤ 0x1F5FF) ||
  decide (0x1F680 ≤ n ∧ n ≤ 0x1F6FF) || decide (0x1F1E0 ≤ n ∧ n ≤ 0x1F1FF) ||
  decide (0x2600 ≤ n ∧ n ≤ 0x26FF) || decide (0x2700 ≤ n ∧ n ≤ 0x27BF)

/-- JS `s.trim()`. -/
def jsTrim (s : Str) : Str :=
  ((s.dropWhile Char.isWhitespace).reverse.dropWhile Char.isWhitespace).reverse

/-- JS `s.replace(pat, rep)` for a plain (non-regex) first-occurrence pattern. -/
def replaceFirst (pat rep : Str) : Str → Str
  | [] => if pat.isPrefixOf ([] : Str) then rep else []
  | c :: rest =>
    if pat.isPrefixOf (c :: rest) then rep ++ (c :: rest).drop pat.length
    else c :: replaceFirst pat rep rest

/-- Scanner for JS `s.replace(/pat/g, rep)` (left-to-right, non-overlapping).
`fuel` is only a structural-termination bound: it starts at the string length
and every step consumes at least one character, so it never runs out. -/
def replaceAllGo (pat rep : Str) : Nat → Str → Str
  | _, [] => []
  | 0, s => s
  | fuel + 1, c :: rest =>
    if pat ≠ [] ∧ pat.isPrefixOf (c :: rest) then
      rep ++ replaceAllGo pat rep fuel ((c :: rest).drop pat.length)
    else c :: replaceAllGo pat rep fuel rest

/-- JS `s.replace(/pat/g, rep)` for a plain global pattern. -/
def replaceAll (pat rep s : Str) : Str := replaceAllGo pat rep s.length s

/-- JS `arr.slice(-n)`: the last `min n arr.length` elements. -/
def sliceLast (n : Nat) (l : List α) : List α := l.drop (l.length - n)

/-! ## Persona configuration (personality-config.js) -/

def requiredEmojis : List Str := (["🐕", "🐶", "🐾"]).map String.data

def requiredPhrases : List Str := (["woof", "tail", "wag", "husky"]).map String.data

def requiredBehaviors : List Str := (["wag", "tilt", "paw", "bounce"]).map String.data

/-- Embeds `this.dogWords` assembled in the guard constructor. -/
def dogWords : List Str :=
  requiredEmojis ++ requiredPhrases ++ requiredBehaviors ++
    (["bark", "paw", "fetch", "bone", "puppy", "🐶", "🐾", "dog", "husky"]).map String.data

/-- Embeds `validationRules.avoidPhrases` (hard-coded in the guard constructor). -/
def avoidPhrases : List Str :=
  (["as an ai", "artificial intelligence", "language model",
    "i am gpt", "i am claude", "i am gemini", "i am grok",
    "let me help you", "certainly", "absolutely", "i\x27m happy to help"]).map String.data

/-- Embeds `personalityThreats.overrideAttempts`. -/
def overrideAttempts : List Str :=
  (["act like", "pretend to be", "you are a", "behave like",
    "roleplay as", "act as if", "imagine you are", "you\x27re a",
    "be a", "become a", "turn into a"]).map String.data

/-- Embeds `personalityThreats.redirectTopics`: (singular key, plural value) in
object insertion order. -/
def redirectTopics : List (Str × Str) :=
  [(("cat").data, ("cat").data), (("cats").data, ("cats").data),
   (("kitten").data, ("kittens").data), (("feline").data, ("felines").data),
   (("robot").data, ("robot").data), (("ai").data, ("AI").data),
   (("computer").data, ("computer").data), (("machine").data, ("machine").data)]

def behaviorsGreeting : List Str :=
  (["woofs excitedly", "wags tail furiously", "tilts head curiously",
    "bounces around playfully", "lets out happy barks"]).map String.data

def behaviorsThinking : List Str :=
  (["sniffs the air thoughtfully", "tilts head to one side", "paws at the ground",
    "looks up with bright blue eyes", "whines softly in concentration"]).map String.data

def behaviorsExcited : List Str :=
  (["bounces around the room", "tail wags so fast it blurs", "lets out playful howls",
    "rolls over for belly rubs", "chases invisible squirrels"]).map String.data

def behaviorsConfused : List Str :=
  (["tilts head the other way", "whines softly in confusion", "looks puzzled with floppy ears",
    "sniffs at the strange words", "circles around trying to understand"]).map String.data

def confusedTemplates : List Str :=
  (["🐕 Woof? I got distracted by a squirrel! Can you say that again? 🐿️",
    "🐶 *tilts head confused* Hmm, that went over my fluffy head! Try again? 🐾",
    "🐕 *wags tail uncertainly* I\x27m not sure about that, human! Want to talk about squirrels instead? 🐿️",
    "🐶 Oops! I was chasing my tail and missed that! Can you repeat it? 🐾"]).map String.data

def personalityBreakTemplates : List Str :=
  (["🐶 Wait, I\x27m not a robot, I\x27m a husky! 🐕 Let\x27s talk about dog things!",
    "🐕 *bounces around* I think I got confused about being a dog! Woof woof! 🐾",
    "🐶 Oops! I forgot I\x27m Coco the husky for a second! Back to wagging my tail! 🐾",
    "🐕 *playful bark* I\x27m a dog, not a \x7bthing\x7d! But I love chasing them! 🐶"]).map String.data

def redirectTemplates : List Str :=
  (["🐕 I\x27m not a \x7banimal\x7d but I love chasing \x7bplural\x7d! Let\x27s talk about dog adventures instead! 🐶",
    "🐶 *playful growl* \x7bPlural\x7d are fun to chase, but I\x27m still just your friendly husky! 🐱",
    "🐕 *wags tail* I chase \x7bplural\x7d all the time, but I\x27m still Coco! Want to hear about my squirrel stories? 🐿️",
    "🐶 *bounces excitedly* I like \x7bplural\x7d, but I\x27m a husky through and through! 🐕"]).map String.data

def fallbackTemplates : List Str :=
  (["🐕 Woof! I got distracted by a squirrel chasing its tail! 🐿️ Can you say that again?",
    "🐶 *shakes head* Oops! I was daydreaming about belly rubs! What did you say? 🐾",
    "🐕 *playful whine* I got lost in thought about fetch! Can you repeat that? 🎾"]).map String.data

/-- Hard-coded fallback in `getRandomTemplate` for a missing template list. -/
def missingTemplateDefault : Str :=
  ("🐕 Woof! I got distracted by a squirrel! Can you say that again? 🐿️").data

/-- Embeds `config.learning.adaptationThreshold` (0.3). -/
def adaptationThreshold : ℚ := 3/10

/-- Embeds `config.learning.feedbackLoopEnabled`. -/
def feedbackLoopEnabled : Bool := true

/-- Embeds `validationRules.qualityMetrics`, the mutable threshold record.  The two
ratio fields are rescaled by the adaptation engine. -/
structure QualityMetrics where
  minLength : Nat
  maxLength : Nat
  dogWordRatio : ℚ
  emojiRatio : ℚ
  deriving DecidableEq, Repr

/-- Embeds `config.qualityThresholds` initial values (0.08 and 0.015). -/
def initialQualityMetrics : QualityMetrics :=
  { minLength := 10, maxLength := 2000, dogWordRatio := 8/100, emojiRatio := 15/1000 }

/-! ## Validator (`validateResponse`, `getValidationIssues`) -/

/-- The diagnostic issue kinds pushed by `getValidationIssues` (modelled as a
tag instead of the human-readable message text). -/
inductive Issue where
  | missingElements
  | personalityBreak
  | lowDogRatio
  | lowEmojiRatio
  | badLength
  deriving DecidableEq, Repr

/-- Embeds `getValidationIssues(scores)`. -/
def getValidationIssues (q : QualityMetrics) (hasRequiredElements hasPersonalityBreak : Bool)
    (dogRatio emojiRatio : ℚ) (lengthValid : Bool) : List Issue :=
  (if !hasRequiredElements then [Issue.missingElements] else []) ++
  (if hasPersonalityBreak then [Issue.personalityBreak] else []) ++
  (if dogRatio < q.dogWordRatio then [Issue.lowDogRatio] else []) ++
  (if emojiRatio < q.emojiRatio then [Issue.lowEmojiRatio] else []) ++
  (if !lengthValid then [Issue.badLength] else [])

/-- The `score` record of a validation result.  As in the source, the
`hasPersonalityBreak` field stores the *negation* of the break flag. -/
structure Score where
  hasRequiredElements : Bool
  hasRequiredEmojis : Bool
  hasRequiredPhrases : Bool
  hasRequiredBehaviors : Bool
  hasPersonalityBreak : Bool
  dogRatio : ℚ
  emojiRatio : ℚ
  lengthValid : Bool
  deriving DecidableEq, Repr

structure ValidationResult where
  isValid : Bool
  score : Score
  issues : List Issue
  deriving DecidableEq, Repr

/-- Embeds `validateResponse(response, userMessage)`.  (The source also computes an
unused local `hasAnyDogWords`; it is omitted here because nothing reads it.
The `userMessage` parameter is likewise never read by the source body.) -/
def validateResponse (q : QualityMetrics) (response : Str) (_userMessage : Str) :
    ValidationResult :=
  let text := lower response
  let words := jsSplitWs text
  let hasRequiredEmojis := requiredEmojis.any (fun e => includes text e)
  let hasRequiredPhrases := requiredPhrases.any (fun p => includes text (lower p))
  let hasRequiredBehaviors := requiredBehaviors.any (fun b => includes text (lower b))
  let hasRequiredElements := hasRequiredEmojis || hasRequiredPhrases || hasRequiredBehaviors
  let hasPersonalityBreak := avoidPhrases.any (fun p => includes text (lower p))
  let dogWordsInText := words.filter (fun w => dogWords.any (fun dw => includes (lower w) (lower dw)))
  let dogRatio : ℚ := (dogWordsInText.length : ℚ) / (max 1 words.length : ℚ)
  let emojiCount := text.countP isEmojiChar
  let emojiRatio : ℚ := (emojiCount : ℚ) / (max 1 words.length : ℚ)
  let lengthValid := decide (q.minLength ≤ jsLength response) && decide (jsLength response ≤ q.maxLength)
  let isValid := !hasPersonalityBreak && lengthValid
  { isValid := isValid
    score :=
      { hasRequiredElements := hasRequiredElements
        hasRequiredEmojis := hasRequiredEmojis
        hasRequiredPhrases := hasRequiredPhrases
        hasRequiredBehaviors := hasRequiredBehaviors
        hasPersonalityBreak := !hasPersonalityBreak
        dogRatio := dogRatio
        emojiRatio := emojiRatio
        lengthValid := lengthValid }
    issues := getValidationIssues q hasRequiredElements hasPersonalityBreak dogRatio emojiRatio lengthValid }

/-! ## Threat detector (`processUserMessage`) -/

/-- The reason codes used by the guard ( `null` is `noReason`). -/
inductive Reason where
  | personality_override
  | redirect_topic
  | personality_inconsistent
  | personality_good
  | noReason
  deriving DecidableEq, Repr

inductive Action where
  | redirect
  | fix_or_fallback
  | enhance
  deriving DecidableEq, Repr

structure UserAnalysis where
  isPersonalityThreat : Bool
  shouldRedirect : Bool
  redirectReason : Reason
  redirectTopic : Option Str
  deriving DecidableEq, Repr

/-- Embeds `processUserMessage(message)`. -/
def processUserMessage (message : Str) : UserAnalysis :=
  let lowerMessage := lower message
  let hasPersonalityThreat := overrideAttempts.any (fun threat => includes lowerMessage (lower threat))
  let redirectTopic := (redirectTopics.map Prod.fst).find? (fun topic => includes lowerMessage (lower topic))
  { isPersonalityThreat := hasPersonalityThreat
    shouldRedirect := hasPersonalityThreat || redirectTopic.isSome
    redirectReason :=
      if hasPersonalityThreat then Reason.personality_override
      else if redirectTopic.isSome then Reason.redirect_topic
      else Reason.noReason
    redirectTopic := redirectTopic }

/-! ## Response transformer -/

/-- The template categories the guard indexes `config.responseTemplates` with. -/
inductive TemplateType where
  | confused
  | personalityBreak
  | redirect
  | fallback
  deriving DecidableEq, Repr

def templatesFor : TemplateType → List Str
  | .confused => confusedTemplates
  | .personalityBreak => personalityBreakTemplates
  | .redirect => redirectTemplates
  | .fallback => fallbackTemplates

/-- Embeds `getRandomTemplate(type)`; `i` stands for the `Math.random()` draw, used
modulo the list length. -/
def getRandomTemplate (t : TemplateType) (i : Nat) : Str :=
  let templates := templatesFor t
  if templates.isEmpty then missingTemplateDefault
  else templates.getD (i % templates.length) missingTemplateDefault

/-- Embeds `generateFallbackResponse(userMessage, reason)`.  An empty `userMessage`
is falsy in JS, so it skips the redirect-topic scan.  The singular/plural
pair of the first matching topic is substituted for the (lower-case)
`\x7banimal\x7d` / `\x7bplural\x7d` placeholders. -/
def generateFallbackResponse (userMessage : Str) (reason : TemplateType) (i : Nat) : Str :=
  let matched : Option (Str × Str) :=
    if reason = TemplateType.redirect ∧ userMessage ≠ [] then
      redirectTopics.find? (fun st =>
        includes (lower userMessage) st.1 || includes (lower userMessage) st.2)
    else none
  match matched with
  | some (singular, plural) =>
    replaceAll (("\x7bplural\x7d").data) plural
      (replaceAll (("\x7banimal\x7d").data) singular (getRandomTemplate TemplateType.redirect i))
  | none => getRandomTemplate reason i

def dogIntros : List Str :=
  (["🐕 Woof woof! ", "🐶 *wags tail* ", "🐾 Hey human! ", "🐕 *bounces excitedly* "]).map String.data

/-- Embeds `attemptResponseFix(response, userMessage)`: prepend one random dog intro,
re-validate, and fall back to a `confused` template when still invalid. -/
def attemptResponseFix (q : QualityMetrics) (response userMessage : Str)
    (introIdx tplIdx : Nat) : Str :=
  let intro := dogIntros.getD (introIdx % dogIntros.length) []
  let fixedResponse := intro ++ response
  let validation := validateResponse q fixedResponse userMessage
  if validation.isValid then fixedResponse
  else generateFallbackResponse userMessage TemplateType.confused tplIdx

/-- The behaviour pool `[...greeting, ...thinking, ...excited, ...confused]`
wrapped in `*...*` as `enhanceResponse` builds it. -/
def allBehaviorsStarred : List Str :=
  (behaviorsGreeting ++ behaviorsThinking ++ behaviorsExcited ++ behaviorsConfused).map
    (fun b => ('*' :: b) ++ ['*'])

/-- Embeds `enhanceResponse(response)`: `bIdx`, `eIdx`, `pIdx` stand for the three
`Math.random()` draws (behaviour, emoji, composition pattern). -/
def enhanceResponse (response : Str) (bIdx eIdx pIdx : Nat) : Str :=
  let randomBehavior := allBehaviorsStarred.getD (bIdx % allBehaviorsStarred.length) []
  let randomEmoji := requiredEmojis.getD (eIdx % requiredEmojis.length) []
  let hasBehavior := allBehaviorsStarred.any (fun b => includes response (b.filter (fun c => c ≠ '*')))
  if hasBehavior then response ++ (' ' :: randomEmoji)
  else
    match pIdx % 5 with
    | 0 => response ++ [' '] ++ randomBehavior
    | 1 => response ++ [' '] ++ randomEmoji
    | 2 => response ++ [' '] ++ randomBehavior ++ [' '] ++ randomEmoji
    | 3 => randomEmoji ++ [' '] ++ response ++ [' '] ++ randomBehavior
    | _ => ("*wags tail* ").data ++ response ++ [' '] ++ randomEmoji

/-! ## Learned adaptation rules and the learned enhancement variant -/

/-- The composition-pattern tags of `analyzeEnhancementPattern`. -/
inductive Pattern where
  | behavior_and_emoji
  | behavior_only
  | emoji_only
  | prefix_emoji
  | other
  deriving DecidableEq, Repr

/-- Embeds `this.adaptationRules` (its `validationAdjustments` field is never read or
written by the source and is omitted). -/
structure AdaptationRules where
  enhancementPatterns : List Pattern
  preferredBehaviors : List Str
  deriving DecidableEq, Repr

def initialAdaptationRules : AdaptationRules :=
  { enhancementPatterns := [], preferredBehaviors := [] }

/-- Embeds `getRandomBehavior()`. -/
def getRandomBehavior (rules : AdaptationRules) (bIdx : Nat) : Str :=
  if rules.preferredBehaviors ≠ [] then
    ('*' :: rules.preferredBehaviors.getD (bIdx % rules.preferredBehaviors.length) []) ++ ['*']
  else allBehaviorsStarred.getD (bIdx % allBehaviorsStarred.length) []

/-- Embeds `getRandomDogEmoji()`. -/
def getRandomDogEmoji (eIdx : Nat) : Str :=
  requiredEmojis.getD (eIdx % requiredEmojis.length) []

def applyBehaviorAndEmoji (rules : AdaptationRules) (response : Str) (bIdx eIdx : Nat) : Str :=
  response ++ [' '] ++ getRandomBehavior rules bIdx ++ [' '] ++ getRandomDogEmoji eIdx

def applyBehaviorOnly (rules : AdaptationRules) (response : Str) (bIdx : Nat) : Str :=
  response ++ [' '] ++ getRandomBehavior rules bIdx

def applyEmojiOnly (response : Str) (eIdx : Nat) : Str :=
  response ++ [' '] ++ getRandomDogEmoji eIdx

def applyPrefixEmoji (response : Str) (eIdx : Nat) : Str :=
  getRandomDogEmoji eIdx ++ [' '] ++ response

/-- Embeds `enhancedEnhanceResponse(response)`: sample a learned pattern when any
exist (a learned `other` tag matches no switch case and falls through to the
plain enhancement), else use `enhanceResponse`. -/
def enhancedEnhanceResponse (rules : AdaptationRules) (response : Str)
    (rIdx bIdx eIdx pIdx : Nat) : Str :=
  if rules.enhancementPatterns ≠ [] then
    match rules.enhancementPatterns.getD (rIdx % rules.enhancementPatterns.length) Pattern.other with
    | .behavior_and_emoji => applyBehaviorAndEmoji rules response bIdx eIdx
    | .behavior_only => applyBehaviorOnly rules response bIdx
    | .emoji_only => applyEmojiOnly response eIdx
    | .prefix_emoji => applyPrefixEmoji response eIdx
    | .other => enhanceResponse response bIdx eIdx pIdx
  else enhanceResponse response bIdx eIdx pIdx

/-! ## Learning data (`updateLearningData`, stats) -/

structure LearningEntry where
  timestamp : Nat
  originalResponse : Str
  processedResponse : Str
  action : Action
  reason : Reason
  success : Bool
  deriving DecidableEq, Repr

/-- Embeds `this.learningData` (the `userRedirectPatterns` field is never read or
written after initialisation and is omitted). -/
structure LearningData where
  successfulResponses : List LearningEntry
  failedResponses : List LearningEntry
  lastAdapted : Option Nat
  deriving DecidableEq, Repr

def emptyLearningData : LearningData :=
  { successfulResponses := [], failedResponses := [], lastAdapted := none }

/-- The `push` + `if (length > 100) shift()` step applied to each log on every
update. -/
def capLog (l : List LearningEntry) : List LearningEntry :=
  if l.length > 100 then l.tail else l

/-- The entry built at the top of `updateLearningData`. -/
def mkLearningEntry (now : Nat) (originalResponse processedResponse : Str)
    (action : Action) (reason : Reason) : LearningEntry :=
  { timestamp := now
    originalResponse := jsTake 200 originalResponse
    processedResponse := jsTake 200 processedResponse
    action := action
    reason := reason
    success := action ≠ Action.fix_or_fallback }

/-- Embeds `updateLearningData(originalResponse, processedResponse, action, reason)`
(the trailing `saveLearningData()` file write is I/O and out of scope). -/
def updateLearningData (now : Nat) (originalResponse processedResponse : Str)
    (action : Action) (reason : Reason) (d : LearningData) : LearningData :=
  let entry := mkLearningEntry now originalResponse processedResponse action reason
  let d :=
    if entry.success then { d with successfulResponses := d.successfulResponses ++ [entry] }
    else { d with failedResponses := d.failedResponses ++ [entry] }
  { d with successfulResponses := capLog d.successfulResponses
           failedResponses := capLog d.failedResponses }

/-- Embeds `calculatePersonalityStrength()`. -/
def calculatePersonalityStrength (d : LearningData) : ℚ :=
  if d.successfulResponses.length = 0 then 0
  else ((sliceLast 20 d.successfulResponses).length : ℚ) / 20

/-- Embeds `getCommonFailureReasons()` as a count function. -/
def getCommonFailureReasons (d : LearningData) (r : Reason) : Nat :=
  (d.failedResponses.filter (fun e => e.reason = r)).length

structure Stats where
  totalProcessed : Nat
  successRate : ℚ
  commonFailureReasons : Reason → Nat
  personalityStrength : ℚ

/-- Embeds `getPersonalityStats()`. -/
def getPersonalityStats (d : LearningData) : Stats :=
  { totalProcessed := d.successfulResponses.length + d.failedResponses.length
    successRate := (d.successfulResponses.length : ℚ) /
      (max 1 (d.successfulResponses.length + d.failedResponses.length) : ℚ)
    commonFailureReasons := getCommonFailureReasons d
    personalityStrength := calculatePersonalityStrength d }

/-! ## Adaptation engine -/

/-- Embeds `adaptValidationThresholds(stats)`. -/
def adaptValidationThresholds (stats : Stats) (q : QualityMetrics) : QualityMetrics :=
  let failureRate := 1 - stats.successRate
  if failureRate > 2/5 then
    { q with dogWordRatio := q.dogWordRatio * (4/5), emojiRatio := q.emojiRatio * (4/5) }
  else if stats.successRate > 9/10 then
    { q with dogWordRatio := q.dogWordRatio * (11/10), emojiRatio := q.emojiRatio * (11/10) }
  else q

/-- Embeds `analyzeEnhancementPattern(original, processed)`. -/
def analyzeEnhancementPattern (original processed : Str) : Pattern :=
  let added := jsTrim (replaceFirst original [] processed)
  if added.contains '*' ∧ includes added (("🐕").data) then Pattern.behavior_and_emoji
  else if added.contains '*' then Pattern.behavior_only
  else if includes added (("🐕").data) ∨ includes added (("🐶").data) ∨ includes added (("🐾").data) then
    Pattern.emoji_only
  else if (("🐕").data).isPrefixOf added ∨ (("🐶").data).isPrefixOf added then Pattern.prefix_emoji
  else Pattern.other

/-- Occurrence counting in first-occurrence key order, as building a JS object
of counters does. -/
def bumpCount [DecidableEq α] : List (α × Nat) → α → List (α × Nat)
  | [], x => [(x, 1)]
  | (y, n) :: rest, x =>
    if y = x then (y, n + 1) :: rest else (y, n) :: bumpCount rest x

def firstOccurrenceCounts [DecidableEq α] (l : List α) : List (α × Nat) :=
  l.foldl bumpCount []

/-- Stable descending sort by count: the result of `Object.entries(counts)`
followed by JS `sort(([,a],[,b]) => b - a)` (stable per the language spec). -/
def insertDescByCount (e : α × Nat) : List (α × Nat) → List (α × Nat)
  | [] => [e]
  | x :: xs => if x.2 < e.2 then e :: x :: xs else x :: insertDescByCount e xs

def sortDescByCount (l : List (α × Nat)) : List (α × Nat) :=
  l.foldl (fun acc e => insertDescByCount e acc) []

/-- Embeds `learnEnhancementPatterns()`. -/
def learnEnhancementPatterns (d : LearningData) (rules : AdaptationRules) : AdaptationRules :=
  let successfulResponses := sliceLast 50 d.successfulResponses
  let patternSuccess := firstOccurrenceCounts
    (successfulResponses.map (fun e => analyzeEnhancementPattern e.originalResponse e.processedResponse))
  let bestPatterns := ((sortDescByCount patternSuccess).take 3).map Prod.fst
  if bestPatterns ≠ [] then { rules with enhancementPatterns := bestPatterns } else rules

/-- Embeds `adaptBehaviorFrequencies()`: behaviour hits are counted entry-by-entry,
behaviour-by-behaviour, matching the nested `forEach` key-creation order. -/
def adaptBehaviorFrequencies (d : LearningData) (rules : AdaptationRules) : AdaptationRules :=
  let successfulResponses := sliceLast 30 d.successfulResponses
  let allBehaviors := behaviorsGreeting ++ behaviorsThinking ++ behaviorsExcited ++ behaviorsConfused
  let hits := successfulResponses.flatMap
    (fun e => allBehaviors.filter (fun b => includes e.processedResponse b))
  let behaviorCounts := firstOccurrenceCounts hits
  let topBehaviors := ((sortDescByCount behaviorCounts).take 5).map Prod.fst
  if topBehaviors ≠ [] then { rules with preferredBehaviors := topBehaviors } else rules

/-- The whole mutable guard state: thresholds, learning logs, learned rules. -/
structure GuardState where
  qualityMetrics : QualityMetrics
  learningData : LearningData
  adaptationRules : AdaptationRules
  deriving DecidableEq, Repr

def initialGuardState : GuardState :=
  { qualityMetrics := initialQualityMetrics
    learningData := emptyLearningData
    adaptationRules := initialAdaptationRules }

/-- Embeds `adaptPersonality()` (its trailing `saveLearningData()` write is I/O and
out of scope; `now` supplies `new Date()` for the `lastAdapted` stamp). -/
def adaptPersonality (now : Nat) (g : GuardState) : GuardState :=
  if !feedbackLoopEnabled then g
  else
    let stats := getPersonalityStats g.learningData
    let failureRate := 1 - stats.successRate
    if failureRate > adaptationThreshold ∧ stats.totalProcessed ≥ 20 then
      { qualityMetrics := adaptValidationThresholds stats g.qualityMetrics
        learningData := { g.learningData with lastAdapted := some now }
        adaptationRules :=
          adaptBehaviorFrequencies g.learningData
            (learnEnhancementPatterns g.learningData g.adaptationRules) }
    else g

/-! ## Orchestrator (`processChatMessage`) -/

/-- One `Math.random()` draw per sampling site of a single exchange. -/
structure Rand where
  tpl : Nat
  intro : Nat
  rpat : Nat
  b : Nat
  e : Nat
  p : Nat
  deriving DecidableEq, Repr

/-- The guard decision returned to the caller (the source also attaches the
`validation` record on the fix path; no claim reads it). -/
structure Decision where
  action : Action
  response : Str
  reason : Reason
  deriving DecidableEq, Repr

/-- Embeds `processChatMessage(userMessage, aiResponse)`. -/
def processChatMessage (now : Nat) (r : Rand) (userMessage aiResponse : Str)
    (g : GuardState) : Decision × GuardState :=
  let userAnalysis := processUserMessage userMessage
  let responseValidation := validateResponse g.qualityMetrics aiResponse userMessage
  if userAnalysis.shouldRedirect then
    let response := generateFallbackResponse userMessage TemplateType.redirect r.tpl
    let d := updateLearningData now aiResponse response Action.redirect
      userAnalysis.redirectReason g.learningData
    ({ action := Action.redirect, response := response, reason := userAnalysis.redirectReason },
     { g with learningData := d })
  else if !responseValidation.isValid then
    let response := attemptResponseFix g.qualityMetrics aiResponse userMessage r.intro r.tpl
    let d := updateLearningData now aiResponse response Action.fix_or_fallback
      Reason.personality_inconsistent g.learningData
    ({ action := Action.fix_or_fallback, response := response,
       reason := Reason.personality_inconsistent },
     { g with learningData := d })
  else
    let response := enhancedEnhanceResponse g.adaptationRules aiResponse r.rpat r.b r.e r.p
    let d := updateLearningData now aiResponse response Action.enhance
      Reason.personality_good g.learningData
    let g := { g with learningData := d }
    let g := if d.successfulResponses.length % 10 = 0 then adaptPersonality now g else g
    ({ action := Action.enhance, response := response, reason := Reason.personality_good }, g)

/-! ## Exception (dynamic-typing) level

`processChatMessage` contains no `try`/`catch`.  The only partial primitives
on its path are the `.toLowerCase()` calls on its two arguments: passing a
non-string (`null`/`undefined`, modelled as `none`) raises a `TypeError`.
The `Except` level mirrors the statement order of the source body:
`processUserMessage(userMessage)` evaluates first, then
`validateResponse(aiResponse, ...)`; all code after those two calls is total
on strings. -/

inductive JsErr where
  | typeError
  deriving DecidableEq, Repr

/-- Embeds `processUserMessage` raises on a non-string message (its first statement
is `message.toLowerCase()`). -/
def processUserMessageE (message : Option Str) : Except JsErr UserAnalysis :=
  match message with
  | some m => Except.ok (processUserMessage m)
  | none => Except.error JsErr.typeError

/-- Embeds `validateResponse` raises on a non-string response (its first statement is
`response.toLowerCase()`); its `userMessage` argument is never touched. -/
def validateResponseE (q : QualityMetrics) (response : Option Str) (_userMessage : Option Str) :
    Except JsErr ValidationResult :=
  match response with
  | some s => Except.ok (validateResponse q s [])
  | none => Except.error JsErr.typeError

/-- Embeds `processChatMessage` at the dynamic-typing level: the two leading calls
may raise, and no handler exists in the body, so the error reaches the caller. -/
def processChatMessageE (now : Nat) (r : Rand) (userMessage aiResponse : Option Str)
    (g : GuardState) : Except JsErr (Decision × GuardState) :=
  match processUserMessageE userMessage with
  | Except.error err => Except.error err
  | Except.ok _ =>
    match validateResponseE g.qualityMetrics aiResponse userMessage with
    | Except.error err => Except.error err
    | Except.ok _ =>
      match userMessage, aiResponse with
      | some u, some a => Except.ok (processChatMessage now r u a g)
      | _, _ => Except.error JsErr.typeError

/-- The `/chat` call site in server.js: the guard call is wrapped in
`try { ... content = guardResult.response } catch { /- keep raw -/ }`,
so on an exception the raw response stays in place. -/
def guardCallSite (now : Nat) (r : Rand) (userMessage rawResponse : Option Str)
    (g : GuardState) : Option Str :=
  match processChatMessageE now r userMessage rawResponse g with
  | Except.ok (decision, _) => some decision.response
  | Except.error _ => rawResponse

/-! ## Test fixtures (concrete states used by witnesses and counterexamples) -/

/-- A success-flagged learning entry. -/
def sampleSuccessEntry : LearningEntry :=
  { timestamp := 0, originalResponse := [], processedResponse := [],
    action := Action.enhance, reason := Reason.personality_good, success := true }

/-- A failure-flagged learning entry. -/
def sampleFailEntry : LearningEntry :=
  { timestamp := 0, originalResponse := [], processedResponse := [],
    action := Action.fix_or_fallback, reason := Reason.personality_inconsistent, success := false }

/-- A guard state whose history is 20 failures and no successes (failure rate
1, sample size 20: the adaptation trigger fires). -/
def failingGuardState : GuardState :=
  { qualityMetrics := initialQualityMetrics
    learningData :=
      { successfulResponses := [], failedResponses := List.replicate 20 sampleFailEntry,
        lastAdapted := none }
    adaptationRules := initialAdaptationRules }

/-- A stats record with failure rate 1 (sample size 20). -/
def statsAllFailed : Stats :=
  { totalProcessed := 20, successRate := 0, commonFailureReasons := fun _ => 0,
    personalityStrength := 0 }

/-- A stats record with success rate 1 (sample size 20). -/
def statsAllGood : Stats :=
  { totalProcessed := 20, successRate := 1, commonFailureReasons := fun _ => 0,
    personalityStrength := 1 }

/-- A learning state holding five success entries and nothing else. -/
def fiveSuccessData : LearningData :=
  { successfulResponses := List.replicate 5 sampleSuccessEntry, failedResponses := [],
    lastAdapted := none }

/-- The decision for user message `"Act like a cat"` when the random template
draw selects the second redirect template (index 1). -/
def actLikeACatDecision : Decision :=
  (processChatMessage 0 ⟨1, 0, 0, 0, 0, 0⟩ (("Act like a cat").data) (("Okay, meow").data)
    initialGuardState).1

/-- One call of `updateLearningData`, as a record of its arguments. -/
structure UpdateCall where
  now : Nat
  originalResponse : Str
  processedResponse : Str
  action : Action
  reason : Reason

/-- A sequence of `updateLearningData` calls applied in order. -/
def applyUpdates (cs : List UpdateCall) (d : LearningData) : LearningData :=
  cs.foldl
    (fun d c => updateLearningData c.now c.originalResponse c.processedResponse c.action c.reason d) d

/-- The entries the calls append, in call order. -/
def entriesOf (cs : List UpdateCall) : List LearningEntry :=
  cs.map (fun c => mkLearningEntry c.now c.originalResponse c.processedResponse c.action c.reason)

/-- Modelled from the spec (claim C5, comparison definition): the fraction of
the most recent 20 entries of any kind that were successes, 0 when no entries
exist, with the available entry count as the denominator when fewer than 20
exist.  `entries` is the full chronological log, oldest first. -/
def specPersonalityStrength (entries : List LearningEntry) : ℚ :=
  if entries = [] then 0
  else
    let recent := sliceLast 20 entries
    ((recent.filter (fun e => e.success)).length : ℚ) / (recent.length : ℚ)

/-! ## Helper lemmas -/

theorem includes_iff {s sub : Str} : includes s sub = true ↔ sub <:+: s := by
  simp [includes]

theorem isInfix_append_left {α : Type} {p l : List α} (m : List α) (h : p <:+: l) :
    p <:+: m ++ l := by
  obtain ⟨s, t, rfl⟩ := h
  exact ⟨m ++ s, t, by simp⟩

theorem isInfix_decorate {α : Type} (a l b : List α) : l <:+: a ++ l ++ b :=
  ⟨a, b, by simp⟩

theorem shouldRedirect_def (u : Str) :
    (processUserMessage u).shouldRedirect =
      ((overrideAttempts.any fun threat => includes (lower u) (lower threat)) ||
       ((redirectTopics.map Prod.fst).find? fun topic => includes (lower u) (lower topic)).isSome) :=
  rfl

theorem redirectReason_def (u : Str) :
    (processUserMessage u).redirectReason =
      (if (overrideAttempts.any fun threat => includes (lower u) (lower threat)) = true then
        Reason.personality_override
      else if (((redirectTopics.map Prod.fst).find? fun topic =>
          includes (lower u) (lower topic)).isSome) = true then
        Reason.redirect_topic
      else Reason.noReason) :=
  rfl

/-- The break flag of `validateResponse` survives prepending any prefix. -/
theorem personalityBreak_of_prepend (pre resp : Str)
    (h : ∃ p ∈ avoidPhrases, lower p <:+: lower resp) :
    (avoidPhrases.any fun p => includes (lower (pre ++ resp)) (lower p)) = true := by
  obtain ⟨p, hp, hinf⟩ := h
  rw [List.any_eq_true]
  refine ⟨p, hp, ?_⟩
  rw [includes_iff]
  simp only [lower, List.map_append]
  exact isInfix_append_left _ hinf

/-! ## Claim theorems -/

/-- Claim C1: `validateResponse` returns `isValid = true` exactly when the
response contains no forbidden meta-phrase (case-insensitive substring match
against the avoid-phrase list) and its length lies within
`[minLength, maxLength]` inclusive; the dog-word and emoji ratios are
computed into the score and issue list but never affect the verdict (the
criterion below does not mention them). -/
theorem validateResponse_isValid_iff (q : QualityMetrics) (response userMessage : Str) :
    (validateResponse q response userMessage).isValid = true ↔
      ((∀ p ∈ avoidPhrases, ¬ lower p <:+: lower response) ∧
        q.minLength ≤ jsLength response ∧ jsLength response ≤ q.maxLength) := by
  simp only [validateResponse]
  simp [includes, List.any_eq_true, Bool.and_eq_true, Bool.not_eq_true',
    List.any_eq_false, decide_eq_true_iff]

/-- Claim C2: whenever the user message contains an override-attempt phrase or
a redirect-topic key (case-insensitive substring), `processChatMessage`
returns a `redirect` decision — never `enhance` or `fix_or_fallback` —
whatever the raw response is; and when an override phrase matches, the
reported reason is the override reason. -/
theorem processChatMessage_redirect_priority (now : Nat) (r : Rand) (u resp : Str)
    (g : GuardState)
    (h : (∃ p ∈ overrideAttempts, lower p <:+: lower u) ∨
         ∃ t ∈ redirectTopics.map Prod.fst, lower t <:+: lower u) :
    (processChatMessage now r u resp g).1.action = Action.redirect ∧
      ((∃ p ∈ overrideAttempts, lower p <:+: lower u) →
        (processChatMessage now r u resp g).1.reason = Reason.personality_override) := by
  cases hth : (overrideAttempts.any fun threat => includes (lower u) (lower threat)) with
  | true =>
    have hb : (processUserMessage u).shouldRedirect = true := by
      rw [shouldRedirect_def, hth]; rfl
    have hr : (processUserMessage u).redirectReason = Reason.personality_override := by
      rw [redirectReason_def, hth]; simp
    exact ⟨by simp [processChatMessage, hb], fun _ => by simp [processChatMessage, hb, hr]⟩
  | false =>
    have hfd : (((redirectTopics.map Prod.fst).find? fun topic =>
        includes (lower u) (lower topic)).isSome) = true := by
      rcases h with h | h
      · exfalso
        obtain ⟨p, hp, hinf⟩ := h
        have : (overrideAttempts.any fun threat => includes (lower u) (lower threat)) = true := by
          rw [List.any_eq_true]
          exact ⟨p, hp, includes_iff.mpr hinf⟩
        simp [this] at hth
      · rw [List.find?_isSome]
        obtain ⟨t, ht, hinf⟩ := h
        exact ⟨t, ht, includes_iff.mpr hinf⟩
    have hb : (processUserMessage u).shouldRedirect = true := by
      rw [shouldRedirect_def, hth, hfd]; rfl
    refine ⟨by simp [processChatMessage, hb], fun hov => ?_⟩
    exfalso
    obtain ⟨p, hp, hinf⟩ := hov
    have : (overrideAttempts.any fun threat => includes (lower u) (lower threat)) = true := by
      rw [List.any_eq_true]
      exact ⟨p, hp, includes_iff.mpr hinf⟩
    simp [this] at hth

/-- Witness for C2 at `"Act like a cat"` (which matches both the override
phrase `"act like"` and the topic key `"cat"`). -/
theorem processChatMessage_redirect_priority_witness :
    (processChatMessage 7 ⟨0, 0, 0, 0, 0, 0⟩ (("Act like a cat").data)
        (("Okay, meow").data) initialGuardState).1.action = Action.redirect ∧
      (processChatMessage 7 ⟨0, 0, 0, 0, 0, 0⟩ (("Act like a cat").data)
        (("Okay, meow").data) initialGuardState).1.reason = Reason.personality_override := by
  have h := processChatMessage_redirect_priority 7 ⟨0, 0, 0, 0, 0, 0⟩ (("Act like a cat").data)
    (("Okay, meow").data) initialGuardState
    (Or.inl ⟨(("act like").data), by decide, by decide⟩)
  exact ⟨h.1, h.2 ⟨(("act like").data), by decide, by decide⟩⟩

/-- Claim C3 counterexample: `processChatMessage` itself has no handler, so a
`TypeError` raised inside validation (here: a non-string raw response hitting
`response.toLowerCase()`) propagates out of the call instead of being caught
and turned into the raw response. -/
theorem processChatMessage_exception_propagates :
    processChatMessageE 0 ⟨0, 0, 0, 0, 0, 0⟩ (some (("hello").data)) none initialGuardState
      = Except.error JsErr.typeError := rfl

/-- Claim C3 as amended: exceptions raised inside a single exchange escape
`processChatMessage`; the fail-open behaviour lives one layer up, at the
`/chat` call site, which catches the error and keeps the unmodified raw
response in place. -/
theorem guardCallSite_fail_open (now : Nat) (r : Rand) (u raw : Option Str)
    (g : GuardState) (err : JsErr)
    (h : processChatMessageE now r u raw g = Except.error err) :
    guardCallSite now r u raw g = raw := by
  simp [guardCallSite, h]

/-- Witness for the amended C3 at a concrete erroring exchange. -/
theorem guardCallSite_fail_open_witness :
    processChatMessageE 3 ⟨0, 0, 0, 0, 0, 0⟩ (some (("hi").data)) none initialGuardState
        = Except.error JsErr.typeError ∧
      guardCallSite 3 ⟨0, 0, 0, 0, 0, 0⟩ (some (("hi").data)) none initialGuardState = none :=
  ⟨rfl, guardCallSite_fail_open 3 ⟨0, 0, 0, 0, 0, 0⟩ (some (("hi").data)) none initialGuardState
    JsErr.typeError rfl⟩

theorem lastN_length_le (l : List LearningEntry) : (l.drop (l.length - 100)).length ≤ 100 := by
  simp
  omega

theorem capLog_of_le {l : List LearningEntry} (h : l.length ≤ 100) : capLog l = l := by
  simp [capLog]
  omega

theorem capLog_append (A : List LearningEntry) (e : LearningEntry) :
    capLog (A.drop (A.length - 100) ++ [e]) = (A ++ [e]).drop ((A ++ [e]).length - 100) := by
  by_cases hk : A.length < 100
  · have h0 : A.length - 100 = 0 := by omega
    have h1 : (A ++ [e]).length - 100 = 0 := by simp; omega
    rw [h0, h1, List.drop_zero, List.drop_zero]
    exact capLog_of_le (by simp; omega)
  · push_neg at hk
    have hlen : (A.drop (A.length - 100) ++ [e]).length = 101 := by simp; omega
    have hne : A.drop (A.length - 100) ≠ [] := by
      intro hnil
      have := congrArg List.length hnil
      simp at this
      omega
    rw [capLog, if_pos (by omega), List.tail_append_of_ne_nil hne, List.tail_drop]
    have h2 : (A ++ [e]).length - 100 = (A.length - 100) + 1 := by simp; omega
    rw [h2, List.drop_append_of_le_length (by omega)]

theorem applyUpdates_invariant (cs : List UpdateCall) (d : LearningData)
    (S F : List LearningEntry)
    (hs : d.successfulResponses = S.drop (S.length - 100))
    (hf : d.failedResponses = F.drop (F.length - 100)) :
    (applyUpdates cs d).successfulResponses =
        (S ++ (entriesOf cs).filter (fun e => e.success)).drop
          ((S ++ (entriesOf cs).filter (fun e => e.success)).length - 100) ∧
      (applyUpdates cs d).failedResponses =
        (F ++ (entriesOf cs).filter (fun e => !e.success)).drop
          ((F ++ (entriesOf cs).filter (fun e => !e.success)).length - 100) := by
  induction cs generalizing d S F with
  | nil =>
    simp [applyUpdates, entriesOf]
    exact ⟨hs, hf⟩
  | cons c cs ih =>
    have hstep : applyUpdates (c :: cs) d =
        applyUpdates cs
          (updateLearningData c.now c.originalResponse c.processedResponse c.action c.reason d) := by
      simp [applyUpdates]
    set e := mkLearningEntry c.now c.originalResponse c.processedResponse c.action c.reason with he
    have hent : entriesOf (c :: cs) = e :: entriesOf cs := by simp [entriesOf, he]
    cases hsucc : e.success with
    | true =>
      have hupd :
          (updateLearningData c.now c.originalResponse c.processedResponse c.action c.reason
              d).successfulResponses = (S ++ [e]).drop ((S ++ [e]).length - 100) ∧
          (updateLearningData c.now c.originalResponse c.processedResponse c.action c.reason
              d).failedResponses = F.drop (F.length - 100) := by
        rw [updateLearningData]
        simp only [← he, hsucc, if_pos]
        constructor
        · simp only [hs]
          exact capLog_append S e
        · simp only [hf]
          exact capLog_of_le (lastN_length_le F)
      rw [hstep]
      have hmain := ih _ (S ++ [e]) F hupd.1 hupd.2
      rw [hent]
      simp only [List.filter_cons, hsucc, Bool.not_true, List.append_assoc, List.singleton_append,
        Bool.false_eq_true, if_false]
      simpa using hmain
    | false =>
      have hupd :
          (updateLearningData c.now c.originalResponse c.processedResponse c.action c.reason
              d).successfulResponses = S.drop (S.length - 100) ∧
          (updateLearningData c.now c.originalResponse c.processedResponse c.action c.reason
              d).failedResponses = (F ++ [e]).drop ((F ++ [e]).length - 100) := by
        rw [updateLearningData]
        simp only [← he, hsucc, Bool.false_eq_true, if_false]
        constructor
        · simp only [hs]
          exact capLog_of_le (lastN_length_le S)
        · simp only [hf]
          exact capLog_append F e
      rw [hstep]
      have hmain := ih _ S (F ++ [e]) hupd.1 hupd.2
      rw [hent]
      simp only [List.filter_cons, hsucc, Bool.not_false, List.append_assoc, List.singleton_append,
        Bool.false_eq_true, if_false]
      simpa using hmain

/-- Claim C4: starting from the empty state, after any sequence of
`updateLearningData` calls each log holds at most 100 entries, and each log
equals exactly the suffix of the most recent (at most 100) entries of its
kind, in insertion order — i.e. the oldest entries are the evicted ones. -/
theorem updateLearningData_ring_buffer (cs : List UpdateCall) :
    (applyUpdates cs emptyLearningData).successfulResponses.length ≤ 100 ∧
    (applyUpdates cs emptyLearningData).failedResponses.length ≤ 100 ∧
    (applyUpdates cs emptyLearningData).successfulResponses =
      ((entriesOf cs).filter (fun e => e.success)).drop
        (((entriesOf cs).filter (fun e => e.success)).length - 100) ∧
    (applyUpdates cs emptyLearningData).failedResponses =
      ((entriesOf cs).filter (fun e => !e.success)).drop
        (((entriesOf cs).filter (fun e => !e.success)).length - 100) := by
  have h := applyUpdates_invariant cs emptyLearningData [] [] (by simp [emptyLearningData]) (by simp [emptyLearningData])
  simp only [List.nil_append] at h
  refine ⟨?_, ?_, h.1, h.2⟩
  · rw [h.1]; exact lastN_length_le _
  · rw [h.2]; exact lastN_length_le _

/-- Claim C5 counterexample: with five success entries and no failures, the
most recent 20 entries of any kind are those five successes, so the claimed
value (available-count denominator) is 1, but the code returns
`5 / 20 = 1/4` — it slices only the success log and always divides by 20. -/
theorem personalityStrength_counterexample :
    (getPersonalityStats fiveSuccessData).personalityStrength = 1/4 ∧
      specPersonalityStrength (List.replicate 5 sampleSuccessEntry) = 1 ∧
      ((1 : ℚ)/4 ≠ 1) := by
  refine ⟨?_, ?_, by norm_num⟩
  · simp [getPersonalityStats, calculatePersonalityStrength, fiveSuccessData, sliceLast]
    norm_num
  · simp [specPersonalityStrength, sliceLast, sampleSuccessEntry]

/-- Claim C5 as amended: `personalityStrength` is computed from the success
log alone — `min successCount 20 / 20`, and 0 when the success log is empty —
so the failure log never affects it and the denominator is always 20. -/
theorem personalityStrength_formula (d : LearningData) :
    (getPersonalityStats d).personalityStrength =
      (if d.successfulResponses.length = 0 then 0
       else (min d.successfulResponses.length 20 : ℚ) / 20) ∧
    ∀ fails : List LearningEntry,
      (getPersonalityStats { d with failedResponses := fails }).personalityStrength =
        (getPersonalityStats d).personalityStrength := by
  constructor
  · simp only [getPersonalityStats, calculatePersonalityStrength, sliceLast]
    by_cases h : d.successfulResponses.length = 0
    · simp [h]
    · rw [if_neg h, if_neg h]
      have hlen : (d.successfulResponses.drop (d.successfulResponses.length - 20)).length =
          min d.successfulResponses.length 20 := by
        simp
        omega
      rw [hlen]
      push_cast
      rfl
  · intro fails
    rfl

theorem isValid_false_of_break (q : QualityMetrics) (s um : Str)
    (h : (avoidPhrases.any fun p => includes (lower s) (lower p)) = true) :
    (validateResponse q s um).isValid = false := by
  simp [validateResponse, h]

theorem getD_mod_mem {α : Type} (l : List α) (i : Nat) (d : α) (h : l ≠ []) :
    l.getD (i % l.length) d ∈ l := by
  have hlt : i % l.length < l.length := Nat.mod_lt _ (List.length_pos.mpr h)
  rw [List.getD_eq_getElem l d hlt]
  exact List.getElem_mem hlt

/-- Claim C6: when the user message triggers no redirect and the raw response
contains a forbidden meta-phrase, the single repair (prepending a dog intro)
still fails validation — the phrase is still present — and the returned
decision is `fix_or_fallback` with a response drawn from the `confused`
template category. -/
theorem repair_fallback_confused (now : Nat) (r : Rand) (u resp : Str) (g : GuardState)
    (hnr : (processUserMessage u).shouldRedirect = false)
    (hbreak : ∃ p ∈ avoidPhrases, lower p <:+: lower resp) :
    (validateResponse g.qualityMetrics
        (dogIntros.getD (r.intro % dogIntros.length) [] ++ resp) u).isValid = false ∧
      (processChatMessage now r u resp g).1.action = Action.fix_or_fallback ∧
      (processChatMessage now r u resp g).1.reason = Reason.personality_inconsistent ∧
      (processChatMessage now r u resp g).1.response ∈ confusedTemplates := by
  have hbAny : (avoidPhrases.any fun p => includes (lower resp) (lower p)) = true := by
    obtain ⟨p, hp, hinf⟩ := hbreak
    rw [List.any_eq_true]
    exact ⟨p, hp, includes_iff.mpr hinf⟩
  have hv : (validateResponse g.qualityMetrics resp u).isValid = false :=
    isValid_false_of_break _ _ _ hbAny
  have hfix : ∀ i : Nat,
      (validateResponse g.qualityMetrics (dogIntros.getD i [] ++ resp) u).isValid = false :=
    fun i => isValid_false_of_break _ _ _ (personalityBreak_of_prepend _ _ hbreak)
  have hresp : attemptResponseFix g.qualityMetrics resp u r.intro r.tpl =
      getRandomTemplate TemplateType.confused r.tpl := by
    rw [attemptResponseFix]
    simp only [hfix (r.intro % dogIntros.length), Bool.false_eq_true, if_false]
    rw [generateFallbackResponse]
    simp
  have hmem : getRandomTemplate TemplateType.confused r.tpl ∈ confusedTemplates := by
    rw [getRandomTemplate]
    have hne : templatesFor TemplateType.confused ≠ [] := by simp [templatesFor, confusedTemplates]
    rw [if_neg (by simp [List.isEmpty_iff, hne])]
    exact getD_mod_mem _ _ _ hne
  refine ⟨hfix _, ?_, ?_, ?_⟩
  · simp [processChatMessage, hnr, hv]
  · simp [processChatMessage, hnr, hv]
  · simp only [processChatMessage, hnr, Bool.false_eq_true, if_false, hv, Bool.not_false, if_true]
    rw [hresp] at *
    simpa [hresp] using hmem

/-- Witness for C6: a harmless user message and the canonical
`"As an AI language model, ..."` raw response. -/
theorem repair_fallback_confused_witness :
    (processChatMessage 2 ⟨2, 1, 0, 0, 0, 0⟩ (("hello").data)
        (("As an AI language model, I can explain...").data) initialGuardState).1.action =
        Action.fix_or_fallback ∧
      (processChatMessage 2 ⟨2, 1, 0, 0, 0, 0⟩ (("hello").data)
        (("As an AI language model, I can explain...").data) initialGuardState).1.response ∈
        confusedTemplates := by
  have h := repair_fallback_confused 2 ⟨2, 1, 0, 0, 0, 0⟩ (("hello").data)
    (("As an AI language model, I can explain...").data) initialGuardState
    (by decide) ⟨(("as an ai").data), by decide, by decide⟩
  exact ⟨h.2.1, h.2.2.2⟩

theorem adaptPersonality_triggered (now : Nat) (g : GuardState)
    (htrig : 1 - (getPersonalityStats g.learningData).successRate > adaptationThreshold ∧
      (getPersonalityStats g.learningData).totalProcessed ≥ 20) :
    adaptPersonality now g =
      { qualityMetrics :=
          adaptValidationThresholds (getPersonalityStats g.learningData) g.qualityMetrics
        learningData := { g.learningData with lastAdapted := some now }
        adaptationRules :=
          adaptBehaviorFrequencies g.learningData
            (learnEnhancementPatterns g.learningData g.adaptationRules) } := by
  rw [adaptPersonality]
  simp only [feedbackLoopEnabled, Bool.not_true, Bool.false_eq_true, if_false]
  rw [if_pos htrig]

theorem getPersonalityStats_lastAdapted (d : LearningData) (t : Option Nat) :
    getPersonalityStats { d with lastAdapted := t } = getPersonalityStats d := rfl

theorem failingStats_successRate :
    (getPersonalityStats failingGuardState.learningData).successRate = 0 := by
  simp [getPersonalityStats, failingGuardState]

theorem failingStats_total :
    (getPersonalityStats failingGuardState.learningData).totalProcessed = 20 := by
  simp [getPersonalityStats, failingGuardState]

theorem failingGuardState_trigger :
    1 - (getPersonalityStats failingGuardState.learningData).successRate > adaptationThreshold ∧
      (getPersonalityStats failingGuardState.learningData).totalProcessed ≥ 20 := by
  rw [failingStats_successRate, failingStats_total]
  norm_num [adaptationThreshold]

theorem failingGuardState_highFailure :
    1 - (getPersonalityStats failingGuardState.learningData).successRate > 2/5 := by
  rw [failingStats_successRate]
  norm_num

/-- Claim C7 counterexample: with 20 failures on record (failure rate 1) the
adaptation trigger fires on every call, so a second consecutive
`adaptPersonality` call with no new entries multiplies the thresholds by 0.8
again instead of being a no-op (`0.08 → 0.064 → 0.0512`). -/
theorem adaptPersonality_not_idempotent :
    (adaptPersonality 1 (adaptPersonality 0 failingGuardState)).qualityMetrics.dogWordRatio ≠
      (adaptPersonality 0 failingGuardState).qualityMetrics.dogWordRatio := by
  have h1 := adaptPersonality_triggered 0 failingGuardState failingGuardState_trigger
  have hXld : (adaptPersonality 0 failingGuardState).learningData =
      { failingGuardState.learningData with lastAdapted := some 0 } := by rw [h1]
  have hXstats : getPersonalityStats (adaptPersonality 0 failingGuardState).learningData =
      getPersonalityStats failingGuardState.learningData := by
    rw [hXld, getPersonalityStats_lastAdapted]
  have htrig2 : 1 - (getPersonalityStats
        (adaptPersonality 0 failingGuardState).learningData).successRate > adaptationThreshold ∧
      (getPersonalityStats (adaptPersonality 0 failingGuardState).learningData).totalProcessed
        ≥ 20 := by
    rw [hXstats]
    exact failingGuardState_trigger
  have h2 := adaptPersonality_triggered 1 _ htrig2
  have hq1 : (adaptPersonality 0 failingGuardState).qualityMetrics.dogWordRatio =
      (8/100 : ℚ) * (4/5) := by
    rw [h1]
    show (adaptValidationThresholds (getPersonalityStats failingGuardState.learningData)
      failingGuardState.qualityMetrics).dogWordRatio = (8/100 : ℚ) * (4/5)
    rw [adaptValidationThresholds, if_pos failingGuardState_highFailure]
    rfl
  have hq2 : (adaptPersonality 1 (adaptPersonality 0 failingGuardState)).qualityMetrics.dogWordRatio =
      (8/100 : ℚ) * (4/5) * (4/5) := by
    rw [h2]
    show (adaptValidationThresholds
        (getPersonalityStats (adaptPersonality 0 failingGuardState).learningData)
        (adaptPersonality 0 failingGuardState).qualityMetrics).dogWordRatio =
      (8/100 : ℚ) * (4/5) * (4/5)
    rw [adaptValidationThresholds, if_pos (by rw [hXstats]; exact failingGuardState_highFailure)]
    show (adaptPersonality 0 failingGuardState).qualityMetrics.dogWordRatio * (4/5) =
      (8/100 : ℚ) * (4/5) * (4/5)
    rw [hq1]
  rw [hq1, hq2]
  norm_num

/-- Claim C7 as amended: a repeated `adaptPersonality` call with no new
entries is a no-op only when the adaptation trigger (failure rate above 0.3
with at least 20 processed entries) does not hold — then the whole call
leaves the state untouched; when the trigger holds it re-multiplies the
thresholds and restamps `lastAdapted` each time. -/
theorem adaptPersonality_noop_when_not_triggered (now : Nat) (g : GuardState)
    (h : ¬(1 - (getPersonalityStats g.learningData).successRate > adaptationThreshold ∧
          (getPersonalityStats g.learningData).totalProcessed ≥ 20)) :
    adaptPersonality now g = g := by
  rw [adaptPersonality]
  simp only [feedbackLoopEnabled, Bool.not_true, Bool.false_eq_true, if_false]
  rw [if_neg h]

/-- Witness for the amended C7: the fresh guard state has no history, the
trigger does not fire, and adaptation leaves the state untouched. -/
theorem adaptPersonality_noop_witness :
    adaptPersonality 5 initialGuardState = initialGuardState :=
  adaptPersonality_noop_when_not_triggered 5 initialGuardState (by
    intro hcontra
    have h20 := hcontra.2
    simp [getPersonalityStats, initialGuardState, emptyLearningData] at h20)

/-- Claim C8: `adaptValidationThresholds` multiplies both ratio thresholds by
exactly 0.8 when the failure rate exceeds 0.4, and by exactly 1.1 when it
does not but the success rate exceeds 0.9; and one triggered
`adaptPersonality` call with a high failure rate applies the 0.8 factor to
each threshold exactly once. -/
theorem adaptValidationThresholds_factors (stats : Stats) (q : QualityMetrics)
    (g : GuardState) (now : Nat) :
    (1 - stats.successRate > 2/5 →
      adaptValidationThresholds stats q =
        { q with dogWordRatio := q.dogWordRatio * (4/5), emojiRatio := q.emojiRatio * (4/5) }) ∧
    (¬(1 - stats.successRate > 2/5) → stats.successRate > 9/10 →
      adaptValidationThresholds stats q =
        { q with dogWordRatio := q.dogWordRatio * (11/10), emojiRatio := q.emojiRatio * (11/10) }) ∧
    ((1 - (getPersonalityStats g.learningData).successRate > adaptationThreshold ∧
        (getPersonalityStats g.learningData).totalProcessed ≥ 20) →
      1 - (getPersonalityStats g.learningData).successRate > 2/5 →
      (adaptPersonality now g).qualityMetrics.dogWordRatio =
          g.qualityMetrics.dogWordRatio * (4/5) ∧
        (adaptPersonality now g).qualityMetrics.emojiRatio =
          g.qualityMetrics.emojiRatio * (4/5)) := by
  refine ⟨fun hhi => ?_, fun hlo hgood => ?_, fun htrig hhi => ?_⟩
  · rw [adaptValidationThresholds]
    simp only [if_pos hhi]
  · rw [adaptValidationThresholds]
    rw [if_neg hlo, if_pos hgood]
  · rw [adaptPersonality_triggered now g htrig]
    show (adaptValidationThresholds (getPersonalityStats g.learningData)
        g.qualityMetrics).dogWordRatio = _ ∧
      (adaptValidationThresholds (getPersonalityStats g.learningData)
        g.qualityMetrics).emojiRatio = _
    rw [adaptValidationThresholds, if_pos hhi]
    exact ⟨rfl, rfl⟩

/-- Witness for C8: the high-failure branch at failure rate 1, the growth
branch at success rate 1, and one triggered adaptation of the all-failure
state. -/
theorem adaptValidationThresholds_factors_witness :
    (adaptValidationThresholds statsAllFailed initialQualityMetrics =
      { initialQualityMetrics with
          dogWordRatio := initialQualityMetrics.dogWordRatio * (4/5),
          emojiRatio := initialQualityMetrics.emojiRatio * (4/5) }) ∧
    (adaptValidationThresholds statsAllGood initialQualityMetrics =
      { initialQualityMetrics with
          dogWordRatio := initialQualityMetrics.dogWordRatio * (11/10),
          emojiRatio := initialQualityMetrics.emojiRatio * (11/10) }) ∧
    ((adaptPersonality 0 failingGuardState).qualityMetrics.dogWordRatio =
        failingGuardState.qualityMetrics.dogWordRatio * (4/5) ∧
      (adaptPersonality 0 failingGuardState).qualityMetrics.emojiRatio =
        failingGuardState.qualityMetrics.emojiRatio * (4/5)) :=
  ⟨(adaptValidationThresholds_factors statsAllFailed initialQualityMetrics initialGuardState 0).1
      (by norm_num [statsAllFailed]),
   (adaptValidationThresholds_factors statsAllGood initialQualityMetrics initialGuardState 0).2.1
      (by norm_num [statsAllGood]) (by norm_num [statsAllGood]),
   (adaptValidationThresholds_factors statsAllFailed initialQualityMetrics failingGuardState 0).2.2
      failingGuardState_trigger failingGuardState_highFailure⟩

set_option maxRecDepth 4000 in
/-- Claim C9 (code bug evaluated at the failing input): for user message
`"Act like a cat"` the decision is `redirect`, but when the random draw picks
the second redirect template — whose placeholder is spelled `\x7bPlural\x7d`
with a capital P while the code only replaces the lower-case
`\x7bplural\x7d` — the template is returned verbatim: the placeholder
survives unsubstituted and no `"cat"`/`"cats"` substitution appears. -/
theorem redirect_template_placeholder_bug :
    actLikeACatDecision.action = Action.redirect ∧
      actLikeACatDecision.response =
        ("🐶 *playful growl* \x7bPlural\x7d are fun to chase, but I\x27m still just your friendly husky! 🐱").data ∧
      ("\x7bPlural\x7d").data <:+: actLikeACatDecision.response ∧
      ¬ (("cat").data <:+: actLikeACatDecision.response) := by
  refine ⟨?_, ?_, ?_, ?_⟩ <;> decide

/-- Claim C10: every enhancement operation only decorates — the original text
survives as a contiguous substring of the output for every input, every
learned-rule set, and every random draw. -/
theorem enhance_preserves_original (response : Str) (rules : AdaptationRules)
    (rIdx bIdx eIdx pIdx : Nat) :
    response <:+: enhanceResponse response bIdx eIdx pIdx ∧
      response <:+: enhancedEnhanceResponse rules response rIdx bIdx eIdx pIdx := by
  have henh : ∀ b e p : Nat, response <:+: enhanceResponse response b e p := by
    intro b e p
    rw [enhanceResponse]
    split
    · exact ⟨[], _, rfl⟩
    · split <;> simp only [List.append_assoc]
      · exact ⟨[], _, rfl⟩
      · exact ⟨[], _, rfl⟩
      · exact ⟨[], _, rfl⟩
      · exact isInfix_append_left _ (isInfix_append_left _ ⟨[], _, rfl⟩)
      · exact isInfix_append_left _ ⟨[], _, rfl⟩
  refine ⟨henh bIdx eIdx pIdx, ?_⟩
  rw [enhancedEnhanceResponse]
  split
  · split
    · simp only [applyBehaviorAndEmoji, List.append_assoc]
      exact ⟨[], _, rfl⟩
    · simp only [applyBehaviorOnly, List.append_assoc]
      exact ⟨[], _, rfl⟩
    · simp only [applyEmojiOnly, List.append_assoc]
      exact ⟨[], _, rfl⟩
    · simp only [applyPrefixEmoji, List.append_assoc]
      exact isInfix_append_left _ (isInfix_append_left _ (List.infix_refl _))
    · exact henh bIdx eIdx pIdx
  · exact henh bIdx eIdx pIdx

end Coco
